import Mathlib

/-!
Shallow embedding of the `semanticagents` backend (three Python files:
`backend/main.py`, `backend/agent/orchestratoragent.py`,
`backend/plugins/databricks_plugin.py`) together with proofs checking the
repository's natural-language specification against the code.

External collaborators (the Azure chat completion service, the Databricks SQL
connection) are modelled as explicit oracle parameters of type
`Except String _`: an `Except.error e` models the collaborator raising a Python
exception whose `str()` is `e`.  Python `str` values are Lean `String`s,
Python dictionaries produced by `json.loads` are values of the `Json`
inductive below, and Python `None` is `Json.null` (exactly as in Python,
where a JSON `null` parses to `None`, the same object the code uses as its
"no chart data" marker).
-/

set_option maxRecDepth 10000

/-! ## Generic string helpers shared by the embedded functions -/

/-- Python regex `\s` and `str.strip()`/`str.split()` whitespace on ASCII
text: space, tab, newline, carriage return, vertical tab, form feed. -/
def pyWs (c : Char) : Bool :=
  c = ' ' || c = '\t' || c = '\n' || c = '\r' || c = '\x0b' || c = '\x0c'

/-- Character-list substring occurrence: the needle occurs contiguously
somewhere in the haystack. -/
def listIsInfix (needle : List Char) : List Char → Bool
  | [] => needle.isEmpty
  | c :: t => needle.isPrefixOf (c :: t) || listIsInfix needle t

/-- Python's `needle in hay` substring test on strings. -/
def containsSubstr (hay needle : String) : Bool :=
  listIsInfix needle.toList hay.toList

/-- Python's `str.upper()` (ASCII; the queries and keywords involved are
ASCII text). -/
def strUpper (s : String) : String :=
  String.mk (s.toList.map Char.toUpper)

/-- Python's `str.lower()` (ASCII). -/
def strLower (s : String) : String :=
  String.mk (s.toList.map Char.toLower)

/-- Python's `str.strip()`: remove leading and trailing whitespace. -/
def strStrip (s : String) : String :=
  String.mk (((s.toList.dropWhile pyWs).reverse.dropWhile pyWs).reverse)

/-- Python's `str.startswith(p)`. -/
def strStartsWith (s p : String) : Bool :=
  p.toList.isPrefixOf s.toList

/-- Python's `str.rstrip(';')`: remove all trailing semicolons. -/
def rstripSemis (s : String) : String :=
  String.mk ((s.toList.reverse.dropWhile (fun c => c = ';')).reverse)

/-- Python's `f"{s:15}"`-style left-justified padding to a minimum width
(strings longer than the width are kept unchanged, as in Python). -/
def padTo (w : Nat) (s : String) : String :=
  s ++ String.mk (List.replicate (w - s.length) ' ')

/-- Worker for `splitWords`: accumulate the current word (reversed) while
scanning. -/
def splitWordsAux : List Char → List Char → List String
  | [], acc => if acc.isEmpty then [] else [String.mk acc.reverse]
  | c :: rest, acc =>
    if pyWs c then
      if acc.isEmpty then splitWordsAux rest []
      else String.mk acc.reverse :: splitWordsAux rest []
    else splitWordsAux rest (c :: acc)

/-- Python's argumentless `str.split()`: split on whitespace runs, no empty
fragments. -/
def splitWords (s : String) : List String :=
  splitWordsAux s.toList []

/-- Python's `any(word in goal_lower for word in kws)`: some keyword of the
family occurs as a substring. -/
def hasAny (goalLower : String) (kws : List String) : Bool :=
  kws.any (fun k => containsSubstr goalLower k)

/-! ## JSON values

Model of the Python objects produced by `json.loads` and consumed by
`json.dumps`.  Numbers are modelled as integers (the repository's chart
payloads and the claims exercise no floats). -/

inductive Json where
  | null
  | bool (b : Bool)
  | num (n : Int)
  | str (s : String)
  | arr (elems : List Json)
  | obj (fields : List (String × Json))

/-- Key lookup in a parsed JSON object, as on a Python dict built by
`json.loads`: with duplicate keys the last occurrence wins, any non-dict has
no keys. -/
def Json.getField : Json → String → Option Json
  | .obj fields, k => ((fields.filter (fun p => p.1 = k)).map (fun p => p.2)).getLast?
  | _, _ => none

/-! ### A JSON reader modelling `json.loads`

Modelled from Python's `json.loads` on the fragment the repository exercises:
objects, arrays, double-quoted strings with the common escapes, integers,
`true`/`false`/`null`, with JSON whitespace allowed between tokens and the
whole input required to be consumed.  (Floats and `\uXXXX` escapes are not
modelled; no claim exercises them, and every theorem below that involves
parsing is conditional on the parse result.) -/

/-- JSON inter-token whitespace accepted by `json.loads`. -/
def jsonWs (c : Char) : Bool :=
  c = ' ' || c = '\t' || c = '\n' || c = '\r'

def skipJsonWs (cs : List Char) : List Char :=
  cs.dropWhile jsonWs

def isDigitChar (c : Char) : Bool :=
  '0' ≤ c && c ≤ '9'

def digitVal (c : Char) : Nat :=
  c.toNat - '0'.toNat

def digitsToNat (acc : Nat) : List Char → Nat
  | [] => acc
  | c :: cs => digitsToNat (acc * 10 + digitVal c) cs

/-- Read a JSON string body after the opening quote; returns the decoded
string and the input after the closing quote. -/
def readStrBody (fuel : Nat) (cs : List Char) : Option (String × List Char) :=
  match fuel with
  | 0 => none
  | fuel + 1 =>
    match cs with
    | [] => none
    | '"' :: rest => some ("", rest)
    | '\\' :: e :: rest =>
      let dec : Option Char :=
        if e = '"' then some '"'
        else if e = '\\' then some '\\'
        else if e = '/' then some '/'
        else if e = 'n' then some '\n'
        else if e = 't' then some '\t'
        else if e = 'r' then some '\r'
        else if e = 'b' then some (Char.ofNat 8)
        else if e = 'f' then some (Char.ofNat 12)
        else none
      match dec with
      | none => none
      | some c =>
        match readStrBody fuel rest with
        | none => none
        | some (s, rem) => some (String.mk (c :: s.toList), rem)
    | c :: rest =>
      match readStrBody fuel rest with
      | none => none
      | some (s, rem) => some (String.mk (c :: s.toList), rem)

mutual

/-- Read one JSON value (leading whitespace allowed). -/
def readVal (fuel : Nat) (cs : List Char) : Option (Json × List Char) :=
  match fuel with
  | 0 => none
  | fuel + 1 =>
    match skipJsonWs cs with
    | [] => none
    | '\x7b' :: rest => readObj fuel (skipJsonWs rest)
    | '[' :: rest => readArr fuel (skipJsonWs rest)
    | '"' :: rest =>
      match readStrBody (rest.length + 1) rest with
      | none => none
      | some (s, rem) => some (.str s, rem)
    | '-' :: rest =>
      let ds := rest.takeWhile isDigitChar
      if ds.isEmpty then none
      else some (.num (-(digitsToNat 0 ds : Int)), rest.dropWhile isDigitChar)
    | c :: rest =>
      if isDigitChar c then
        let ds := (c :: rest).takeWhile isDigitChar
        some (.num (digitsToNat 0 ds : Int), (c :: rest).dropWhile isDigitChar)
      else if ['t', 'r', 'u', 'e'].isPrefixOf (c :: rest) then
        some (.bool true, (c :: rest).drop 4)
      else if ['f', 'a', 'l', 's', 'e'].isPrefixOf (c :: rest) then
        some (.bool false, (c :: rest).drop 5)
      else if ['n', 'u', 'l', 'l'].isPrefixOf (c :: rest) then
        some (.null, (c :: rest).drop 4)
      else none

/-- Read the members of an object, positioned just after `{` (whitespace
already skipped); handles the empty object. -/
def readObj (fuel : Nat) (cs : List Char) : Option (Json × List Char) :=
  match fuel with
  | 0 => none
  | fuel + 1 =>
    match cs with
    | '\x7d' :: rest => some (.obj [], rest)
    | _ => readObjItems fuel cs []

/-- Read `"key": value` members separated by commas, up to the closing `}`. -/
def readObjItems (fuel : Nat) (cs : List Char) (acc : List (String × Json)) :
    Option (Json × List Char) :=
  match fuel with
  | 0 => none
  | fuel + 1 =>
    match cs with
    | '"' :: rest =>
      match readStrBody (rest.length + 1) rest with
      | none => none
      | some (k, rem) =>
        match skipJsonWs rem with
        | ':' :: rem₂ =>
          match readVal fuel rem₂ with
          | none => none
          | some (v, rem₃) =>
            match skipJsonWs rem₃ with
            | ',' :: rem₄ => readObjItems fuel (skipJsonWs rem₄) (acc ++ [(k, v)])
            | '\x7d' :: rem₄ => some (.obj (acc ++ [(k, v)]), rem₄)
            | _ => none
        | _ => none
    | _ => none

/-- Read the elements of an array, positioned just after `[` (whitespace
already skipped); handles the empty array. -/
def readArr (fuel : Nat) (cs : List Char) : Option (Json × List Char) :=
  match fuel with
  | 0 => none
  | fuel + 1 =>
    match cs with
    | ']' :: rest => some (.arr [], rest)
    | _ => readArrItems fuel cs []

/-- Read comma-separated array elements up to the closing `]`. -/
def readArrItems (fuel : Nat) (cs : List Char) (acc : List Json) :
    Option (Json × List Char) :=
  match fuel with
  | 0 => none
  | fuel + 1 =>
    match readVal fuel cs with
    | none => none
    | some (v, rem) =>
      match skipJsonWs rem with
      | ',' :: rem₂ => readArrItems fuel rem₂ (acc ++ [v])
      | ']' :: rem₂ => some (.arr (acc ++ [v]), rem₂)
      | _ => none

end

/-- `json.loads`: parse a complete document, tolerating surrounding
whitespace and requiring full consumption; `none` models `json.loads`
raising. -/
def jsonLoads (s : String) : Option Json :=
  match readVal (4 * s.length + 4) s.toList with
  | none => none
  | some (v, rest) => if (skipJsonWs rest).isEmpty then some v else none

/-! ## Chart extraction (`AzureFoundryAgent._extract_chart_data`)

The source searches `response_text` with the Python regular expression
`r'```json\s*(\{.*?\})\s*```'` under `re.DOTALL`.  The search is modelled
exactly: the leftmost start position wins, and at that position the lazy
group `(\{.*?\})` takes the shortest extent whose closing brace is followed
by optional whitespace and three backticks.  (Backtracking of the greedy
`\s*` runs is immaterial because no whitespace character can begin the
literals `{` or three backticks that follow them.) -/

/-- After the candidate closing brace of the lazy group, the pattern still
needs `\s*` followed by three backticks. -/
def closeFenceAhead (cs : List Char) : Bool :=
  "```".toList.isPrefixOf (cs.dropWhile pyWs)

/-- Scan for the earliest `}` whose tail completes the pattern; returns the
group content from just after `{` through that `}` (lazy `.*?` semantics:
candidate endings are tried in increasing order). -/
def lazyGroupEnd (acc : List Char) : List Char → Option (List Char)
  | [] => none
  | c :: rest =>
    if c = '\x7d' && closeFenceAhead rest then some (acc.reverse ++ [c])
    else lazyGroupEnd (c :: acc) rest

/-- Try to match the whole pattern at this exact start position; returns the
captured group `\{.*?\}` on success. -/
def matchFencedAt (cs : List Char) : Option (List Char) :=
  if "```json".toList.isPrefixOf cs then
    match (cs.drop 7).dropWhile pyWs with
    | '\x7b' :: rest =>
      match lazyGroupEnd [] rest with
      | some g => some ('\x7b' :: g)
      | none => none
    | _ => none
  else none

/-- `re.search` of the fenced-JSON pattern: first start position at which
the pattern matches, leftmost wins. -/
def searchFenced : List Char → Option (List Char)
  | [] => none
  | c :: rest =>
    match matchFencedAt (c :: rest) with
    | some g => some g
    | none => searchFenced rest

/-- The fallthrough branch of `_extract_chart_data`: parse the whole
response as JSON when its trimmed text starts with `{`, guarded by an inner
`try/except: pass`; returns Python `None` (`Json.null`) when anything is
missing. -/
def directJson (response_text : String) : Json :=
  if strStartsWith (strStrip response_text) "\x7b" then
    match jsonLoads response_text with
    | some data =>
      match data.getField "graph_data" with
      | some v => v
      | none => Json.null
    | none => Json.null
  else Json.null

/-- `AzureFoundryAgent._extract_chart_data`.  Returns the Python value of
`data["graph_data"]`, with `Json.null` standing for Python `None` (both the
JSON value `null` and the function's absence marker).  When the fenced match
exists but `json.loads` raises, the outer `except` catches it and the
function returns `None` without attempting the direct-JSON branch. -/
def «_extract_chart_data» (response_text : String) : Json :=
  match searchFenced response_text.toList with
  | some g =>
    match jsonLoads (String.mk g) with
    | none => Json.null
    | some data =>
      match data.getField "graph_data" with
      | some v => v
      | none => directJson response_text
  | none => directJson response_text

/-! ### A JSON writer modelling `json.dumps`

`json.dumps` with its default separators: `", "` between members, `": "`
after keys; the common character escapes in strings (the code's chart
payloads contain no exotic characters). -/

/-- Escape one character as inside a `json.dumps` string literal. -/
def dumpChar (c : Char) : String :=
  if c = '"' then "\\\""
  else if c = '\\' then "\\\\"
  else if c = '\n' then "\\n"
  else if c = '\t' then "\\t"
  else if c = '\r' then "\\r"
  else String.mk [c]

/-- A `json.dumps` double-quoted string literal. -/
def dumpStr (s : String) : String :=
  "\"" ++ String.join (s.toList.map dumpChar) ++ "\""

mutual

/-- `json.dumps` with default separators. -/
def dumpJson : Json → String
  | .null => "null"
  | .bool true => "true"
  | .bool false => "false"
  | .num n => toString n
  | .str s => dumpStr s
  | .arr xs => "[" ++ dumpArrBody xs ++ "]"
  | .obj fs => "\x7b" ++ dumpObjBody fs ++ "\x7d"

def dumpArrBody : List Json → String
  | [] => ""
  | [x] => dumpJson x
  | x :: y :: xs => dumpJson x ++ ", " ++ dumpArrBody (y :: xs)

def dumpObjBody : List (String × Json) → String
  | [] => ""
  | [(k, v)] => dumpStr k ++ ": " ++ dumpJson v
  | (k, v) :: p :: fs => dumpStr k ++ ": " ++ dumpJson v ++ ", " ++ dumpObjBody (p :: fs)

end

/-! ## The Databricks Tool Provider (`backend/plugins/databricks_plugin.py`)

Each method opens a fresh connection, runs one statement and reads all rows;
that whole interaction — including `_get_connection` raising `ValueError`
when `DATABRICKS_HOST` / `DATABRICKS_TOKEN` / `DATABRICKS_HTTP_PATH` are
missing — is modelled by an oracle argument returning `Except String _`,
where `Except.error e` is an exception with `str(e) = e`.  Result rows are
modelled as lists of cells; for `execute_sql_query` the formatting only ever
sees `str(cell)`, so cells are `String`s there, while
`execute_query_for_chart` keeps raw values, so its cells are `Json`. -/

/-- Python's `arg or default` for optional catalog/schema parameters
(`None` and the empty string are both falsy). -/
def resolveArg (arg : Option String) (dflt : String) : String :=
  match arg with
  | none => dflt
  | some s => if s = "" then dflt else s

/-- The query rewrite at the top of `execute_sql_query`: append
` LIMIT {limit}` (after `rstrip(';')`) when the upper-cased, stripped query
starts with `SELECT` and does not contain `LIMIT` anywhere. -/
def addLimit (query : String) (limit : Nat) : String :=
  let query_upper := strStrip (strUpper query)
  if strStartsWith query_upper "SELECT" && !containsSubstr query_upper "LIMIT" then
    rstripSemis query ++ " LIMIT " ++ toString limit
  else
    query

/-- The aligned text table built for a non-empty result set: the
`Query Results (N rows):` line, the 15-wide padded header, a dash rule of
the header's length, and one padded line per row. -/
def formatResultTable (cols : List String) (rows : List (List String)) : String :=
  let header := String.intercalate " | " (cols.map (padTo 15))
  "Query Results (" ++ toString rows.length ++ " rows):\n"
    ++ header ++ "\n"
    ++ String.mk (List.replicate header.length '-') ++ "\n"
    ++ String.join (rows.map (fun row =>
        String.intercalate " | " (row.map (padTo 15)) ++ "\n"))

/-- The truncation summary appended when `len(rows) >= limit`. -/
def truncNotice (limit : Nat) : String :=
  "\n(Showing first " ++ toString limit ++ " rows. Use LIMIT in your query to see more.)"

/-- Everything `execute_sql_query` does after preparing the query: format a
result set, or convert the exception into guidance text, distinguishing
`TABLE_OR_VIEW_NOT_FOUND` and `COLUMN_NOT_FOUND` substrings of `str(e)`. -/
def runPrepared (limit : Nat)
    (outcome : Except String (List String × List (List String))) : String :=
  match outcome with
  | .error e =>
    if containsSubstr e "TABLE_OR_VIEW_NOT_FOUND" then
      "Table not found. Error: " ++ e
        ++ "\n\nTip: Use the list_tables function to see available tables, or describe_table to check table structure."
    else if containsSubstr e "COLUMN_NOT_FOUND" then
      "Column not found. Error: " ++ e
        ++ "\n\nTip: Use describe_table function to see available columns."
    else
      "An error occurred while executing the query: " ++ e
  | .ok (cols, rows) =>
    if rows.isEmpty then
      "Query executed successfully, but no results were returned."
    else
      formatResultTable cols rows ++ (if limit ≤ rows.length then truncNotice limit else "")

/-- `DatabricksPlugin.execute_sql_query` (the oracle receives the prepared
query and returns the cursor description's column names with the fetched
rows, or an exception). -/
def execute_sql_query
    (oracle : String → Except String (List String × List (List String)))
    (query : String) (limit : Nat) : String :=
  runPrepared limit (oracle (addLimit query limit))

/-- The table-name picked from one `SHOW TABLES` row:
`table[1] if len(table) > 1 else str(table[0])`.  (A zero-length tuple would
raise `IndexError` in Python, caught by the same `except`; the connector
never produces one, and no theorem evaluates this case.) -/
def tableNameOf : List String → String
  | _ :: name :: _ => name
  | [a] => a
  | [] => ""

/-- `DatabricksPlugin.list_tables`. -/
def list_tables (oracle : String → Except String (List (List String)))
    (catalog schema : Option String) (defCatalog defSchema : String) : String :=
  let catalog := resolveArg catalog defCatalog
  let schema := resolveArg schema defSchema
  match oracle ("SHOW TABLES IN " ++ catalog ++ "." ++ schema) with
  | .error e => "Error listing tables: " ++ e
  | .ok tables =>
    if tables.isEmpty then
      "No tables found in " ++ catalog ++ "." ++ schema
    else
      "Available tables in " ++ catalog ++ "." ++ schema ++ ":\n"
        ++ String.join (tables.map (fun t => "- " ++ tableNameOf t ++ "\n"))

/-- One `DESCRIBE TABLE` output line:
`col[0] | col[1] | (col[2] if len(col) > 2 else "")`.  (Tuples shorter than
two would raise `IndexError` in Python, caught by the same `except`; no
theorem evaluates that case.) -/
def describeLineOf : List String → String
  | n :: t :: c :: _ => n ++ " | " ++ t ++ " | " ++ c ++ "\n"
  | [n, t] => n ++ " | " ++ t ++ " | " ++ "\n"
  | [n] => n ++ " | " ++ " | " ++ "\n"
  | [] => " | " ++ " | " ++ "\n"

/-- `DatabricksPlugin.describe_table`. -/
def describe_table (oracle : String → Except String (List (List String)))
    (table_name : String) (catalog schema : Option String)
    (defCatalog defSchema : String) : String :=
  let catalog := resolveArg catalog defCatalog
  let schema := resolveArg schema defSchema
  let full_table_name := catalog ++ "." ++ schema ++ "." ++ table_name
  match oracle ("DESCRIBE TABLE " ++ full_table_name) with
  | .error e => "Error describing table " ++ table_name ++ ": " ++ e
  | .ok columns =>
    if columns.isEmpty then
      "Table " ++ full_table_name ++ " not found or has no columns"
    else
      "Table structure for " ++ full_table_name ++ ":\n"
        ++ "Column Name | Data Type | Comment\n"
        ++ String.mk (List.replicate 50 '-') ++ "\n"
        ++ String.join (columns.map describeLineOf)

/-- Python `str()` of a cell value as used for chart labels (strings stay
themselves, numbers print in decimal, `True`/`False`/`None` as in Python;
container cells never occur as labels in practice). -/
def pyStr : Json → String
  | .str s => s
  | .num n => toString n
  | .bool true => "True"
  | .bool false => "False"
  | .null => "None"
  | .arr xs => dumpJson (.arr xs)
  | .obj fs => dumpJson (.obj fs)

/-- `DatabricksPlugin.execute_query_for_chart`.  Rows keep their raw values
(`Json` cells); `row[column_names[i]]` is positional access to column `i`
(the connector's rows are indexable by column name).  Every exception from
the query oracle becomes a JSON error object, never a raised error. -/
def execute_query_for_chart
    (oracle : String → Except String (List String × List (List Json)))
    (query : String) (chart_type : String) : String :=
  match oracle query with
  | .error e =>
    dumpJson (.obj [("error", .str ("Error executing query for chart: " ++ e))])
  | .ok (column_names, rows) =>
    if rows.isEmpty then
      dumpJson (.obj [("error", .str "No data returned from query")])
    else
      let cell := fun (row : List Json) (i : Nat) => row.getD i Json.null
      let data := rows.map (fun row => Json.obj (column_names.zip row))
      let chart_data := Json.obj
        [ ("type", .str chart_type),
          ("data", .obj
            [ ("labels", .arr (rows.map (fun row => .str (pyStr (cell row 0))))),
              ("datasets", .arr
                [ .obj
                  [ ("label", .str (if column_names.length > 1 then column_names.getD 1 "" else "Value")),
                    ("data", .arr (rows.map (fun row =>
                      if column_names.length > 1 then cell row 1 else cell row 0))),
                    ("backgroundColor", .arr
                      (["#FF6384", "#36A2EB", "#FFCE56", "#4BC0C0",
                        "#9966FF", "#FF9F40", "#FF6384", "#C9CBCF"].map Json.str))]])]),
          ("options", .obj
            [ ("responsive", .bool true),
              ("plugins", .obj
                [("title", .obj
                  [("display", .bool true), ("text", .str "Query Results")])])])]
      dumpJson (.obj [("graph_data", chart_data), ("raw_data", .arr data)])

/-! ## The orchestrator (`backend/agent/orchestratoragent.py`)

`AzureFoundryAgent.run` builds the chat history and calls
`get_chat_message_contents`; everything up to and including that call —
the execution-settings import probing included — is summarised by the
`chat` oracle: `Except.error e` is any exception raised during the dispatch
(with `str(e) = e`), `Except.ok msgs` is the returned message list (`[]`
models a falsy/empty response).  The registered `DatabricksPlugin`, as the
fallback reaches it through `kernel.plugins`, is a lookup that can fail
(`found`) plus three invocable functions whose results stringify to the
plugin's return text and which can raise. -/

/-- The dictionary `AzureFoundryAgent.run` returns.  `graph_data = none`
models a dict without the `"graph_data"` key (the fallback and error
dictionaries); `some v` models the key present with value `v`, where
`Json.null` is Python `None`. -/
structure RunResult where
  goal : String
  result : String
  graph_data : Option Json
  status : String

/-- The `DatabricksPlugin` as seen from the kernel by the fallback. -/
structure KernelPlugin where
  found : Bool
  list_tables_fn : Except String String
  describe_table_fn : String → Except String String
  execute_sql_query_fn : String → Except String String

/-- The canned capability-listing answer of the fallback's default branch. -/
def defaultFallbackResult (goal : String) : Except String RunResult :=
  .ok ⟨goal,
    "I understand you want to work with Databricks data. Could you please be more specific? I can help you:\n- List available tables\n- Describe table structures\n- Execute SQL queries\n- Create visualizations",
    none, "success"⟩

/-- The stop-list of the describe-branch table-name guesser. -/
def stopWords : List String :=
  ["describe", "table", "structure", "columns", "schema", "of", "the", "what", "is"]

/-- The table-name guess: first whitespace-separated word of the lower-cased
goal that is not a stop-word. -/
def guessTableName (goal_lower : String) : Option String :=
  (splitWords goal_lower).find? (fun w => !stopWords.contains w)

/-- `AzureFoundryAgent._intelligent_fallback`.  Raising (plugin lookup
failure, or an invoked plugin function raising) is `Except.error`. -/
def «_intelligent_fallback» (p : KernelPlugin) (goal : String) :
    Except String RunResult :=
  let goal_lower := strLower goal
  if !p.found then
    .error "DatabricksPlugin not found"
  else if hasAny goal_lower ["list", "show", "available", "tables"] then
    match p.list_tables_fn with
    | .error e => .error e
    | .ok result =>
      .ok ⟨goal, "Here are the available tables:\n" ++ result, none, "success"⟩
  else if hasAny goal_lower ["describe", "structure", "columns", "schema"] then
    match guessTableName goal_lower with
    | some table_name =>
      match p.describe_table_fn table_name with
      | .error e => .error e
      | .ok result =>
        .ok ⟨goal, "Table structure for " ++ table_name ++ ":\n" ++ result, none, "success"⟩
    | none => defaultFallbackResult goal
  else if hasAny goal_lower ["count", "total", "number"] then
    if containsSubstr goal_lower "telemetry_data" then
      let sql_query := "SELECT COUNT(*) as total_records FROM telemetry_data"
      match p.execute_sql_query_fn sql_query with
      | .error e => .error e
      | .ok result =>
        .ok ⟨goal,
          "I executed this query to get the count: " ++ sql_query ++ "\n\nResult:\n" ++ result,
          none, "success"⟩
    else defaultFallbackResult goal
  else if hasAny goal_lower ["chart", "graph", "visualize", "plot"] then
    .ok ⟨goal,
      "For chart creation, I need a specific SQL query. Please specify what data you want to visualize and I'll help create the appropriate query.",
      none, "success"⟩
  else defaultFallbackResult goal

/-- The orchestration environment of one `run` call: the chat oracle and the
registered plugin. -/
structure AgentEnv where
  chat : Except String (List String)
  plugin : KernelPlugin

/-- `AzureFoundryAgent.run`.  Total: every exception path of the source is a
returned dictionary. -/
def run (env : AgentEnv) (goal : String) : RunResult :=
  match env.chat with
  | .ok response =>
    match response with
    | result_text :: _ =>
      let graph_data :=
        if containsSubstr result_text "graph_data"
            || containsSubstr (strLower goal) "chart"
            || containsSubstr (strLower goal) "graph" then
          «_extract_chart_data» result_text
        else Json.null
      ⟨goal, result_text, some graph_data, "success"⟩
    | [] => ⟨goal, "No response received from the model", none, "error"⟩
  | .error e =>
    match «_intelligent_fallback» env.plugin goal with
    | .ok r => r
    | .error _ =>
      ⟨goal,
        "I encountered an error: " ++ e
          ++ ". This might be due to function calling configuration. Please check your Semantic Kernel version and Azure OpenAI setup.",
        none, "error"⟩

/-! ## The HTTP layer (`backend/main.py`)

The `/ask` handler.  `agentInitialized` is whether the startup hook managed
to build the agent; the `run` outcome is passed as an `Except` because the
handler's `try` must be ready for `agent.run` to raise.  A FastAPI
`HTTPException` is an `Exception` subclass, so the `raise HTTPException(400)`
for an empty prompt lands in the handler's own blanket `except Exception`;
`str()` of an `HTTPException` is `f"{status_code}: {detail}"`. -/

/-- The validated response body of `/ask` (`AskResponse`); `graph_data` is
`Json.null` for Python `None`. -/
structure AskResponse where
  response : String
  graph_data : Json
  status : String

/-- An exception flowing inside the handler's `try` block. -/
inductive PyExc where
  | http (status : Nat) (detail : String)
  | other (msg : String)

/-- Python `str(e)` for the exceptions the handler can see. -/
def pyExcStr : PyExc → String
  | .http code detail => toString code ++ ": " ++ detail
  | .other msg => msg

/-- The HTTP-level outcome of one `/ask` request. -/
inductive HttpOutcome where
  | ok (body : AskResponse)
  | httpError (status : Nat) (detail : String)

/-- The body of the handler's `try` block: validate the prompt, call the
orchestrator, and shape the response dict (note the hard-coded
`"graph_data": None`). -/
def askBody (runOut : Except String RunResult) (prompt : String) :
    Except PyExc AskResponse :=
  if prompt = "" then
    .error (.http 400 "Prompt must be provided")
  else
    match runOut with
    | .error e => .error (.other e)
    | .ok out => .ok ⟨out.result, Json.null, out.status⟩

/-- The `/ask` handler `ask_agent`: the `agent is None` guard sits outside
the `try`, and every exception escaping the `try` body — the handler's own
400 included — is re-raised as a 500 `Internal server error`. -/
def ask_agent (agentInitialized : Bool) (runOut : Except String RunResult)
    (prompt : String) : HttpOutcome :=
  if !agentInitialized then
    .httpError 500 "Agent not initialized"
  else
    match askBody runOut prompt with
    | .ok body => .ok body
    | .error exc => .httpError 500 ("Internal server error: " ++ pyExcStr exc)

/-! ## Shared lemmas -/

/-- Every dictionary the heuristic fallback returns (as opposed to raising)
carries `status = "success"` and echoes the goal. -/
theorem fallback_ok_fields (p : KernelPlugin) (g : String) (r : RunResult)
    (h : «_intelligent_fallback» p g = .ok r) :
    r.status = "success" ∧ r.goal = g := by
  simp only [«_intelligent_fallback», defaultFallbackResult] at h
  repeat' split at h
  all_goals
    first
      | exact Except.noConfusion h
      | (cases h; exact ⟨rfl, rfl⟩)

/-! ## Claim C4 -/

/-- C4: `execute_sql_query` executes the query with ` LIMIT {limit}`
appended (after stripping trailing semicolons) exactly when the trimmed
upper-cased query starts with `SELECT` and does not contain `LIMIT`;
otherwise the query is passed unchanged; in particular
`"SELECT * FROM t"` with `limit = 100` executes
`"SELECT * FROM t LIMIT 100"`. -/
theorem C4_limit_appending (q : String) (l : Nat) :
    ((strStartsWith (strStrip (strUpper q)) "SELECT"
        && !containsSubstr (strStrip (strUpper q)) "LIMIT") = true →
      addLimit q l = rstripSemis q ++ " LIMIT " ++ toString l)
    ∧ ((strStartsWith (strStrip (strUpper q)) "SELECT"
        && !containsSubstr (strStrip (strUpper q)) "LIMIT") = false →
      addLimit q l = q)
    ∧ (∀ f, execute_sql_query f q l = runPrepared l (f (addLimit q l)))
    ∧ addLimit "SELECT * FROM t" 100 = "SELECT * FROM t LIMIT 100" := by
  refine ⟨fun h => ?_, fun h => ?_, fun f => rfl, by decide⟩
  · simp [addLimit, h]
  · simp [addLimit, h]

/-- Witness for C4 at the spec's concrete input. -/
theorem C4_limit_appending_witness :
    addLimit "SELECT * FROM t" 100 =
      rstripSemis "SELECT * FROM t" ++ " LIMIT " ++ toString 100 :=
  (C4_limit_appending "SELECT * FROM t" 100).1 (by decide)

/-! ## Claim C5 -/

/-- C5: whatever exception `e` the query backend raises (missing
credentials included), each of the four Tool Provider operations returns a
descriptive text or JSON-error string — the model is total, so nothing
propagates — and `execute_sql_query` distinguishes object-not-found and
column-not-found errors with dedicated guidance text. -/
theorem C5_errors_reported (e : String) (cat sch : Option String)
    (defC defS tn q ct : String) (l : Nat) :
    list_tables (fun _ => .error e) cat sch defC defS = "Error listing tables: " ++ e
    ∧ describe_table (fun _ => .error e) tn cat sch defC defS =
        "Error describing table " ++ tn ++ ": " ++ e
    ∧ (containsSubstr e "TABLE_OR_VIEW_NOT_FOUND" = true →
        execute_sql_query (fun _ => .error e) q l =
          "Table not found. Error: " ++ e
            ++ "\n\nTip: Use the list_tables function to see available tables, or describe_table to check table structure.")
    ∧ (containsSubstr e "TABLE_OR_VIEW_NOT_FOUND" = false →
        containsSubstr e "COLUMN_NOT_FOUND" = true →
        execute_sql_query (fun _ => .error e) q l =
          "Column not found. Error: " ++ e
            ++ "\n\nTip: Use describe_table function to see available columns.")
    ∧ (containsSubstr e "TABLE_OR_VIEW_NOT_FOUND" = false →
        containsSubstr e "COLUMN_NOT_FOUND" = false →
        execute_sql_query (fun _ => .error e) q l =
          "An error occurred while executing the query: " ++ e)
    ∧ execute_query_for_chart (fun _ => .error e) q ct =
        dumpJson (.obj [("error", .str ("Error executing query for chart: " ++ e))]) := by
  refine ⟨rfl, rfl, fun h1 => ?_, fun h1 h2 => ?_, fun h1 h2 => ?_, rfl⟩
  · simp [execute_sql_query, runPrepared, h1]
  · simp [execute_sql_query, runPrepared, h1, h2]
  · simp [execute_sql_query, runPrepared, h1, h2]

/-- Witness for C5: a missing-credentials `ValueError` text surfaces as
the generic guidance strings, never as a raised exception. -/
theorem C5_errors_reported_witness :
    list_tables (fun _ => .error "Missing Databricks credentials in environment variables.")
        none none "main" "default" =
      "Error listing tables: " ++ "Missing Databricks credentials in environment variables."
    ∧ execute_sql_query (fun _ => .error "Missing Databricks credentials in environment variables.")
        "SELECT 1" 5 =
      "An error occurred while executing the query: "
        ++ "Missing Databricks credentials in environment variables." :=
  ⟨(C5_errors_reported "Missing Databricks credentials in environment variables."
      none none "main" "default" "t" "SELECT 1" "bar" 5).1,
   (C5_errors_reported "Missing Databricks credentials in environment variables."
      none none "main" "default" "t" "SELECT 1" "bar" 5).2.2.2.2.1 (by decide) (by decide)⟩

/-! ## Claim C7 -/

/-- C7 counterexample: with `limit = 0` and an empty result set, the result
set has "at least `limit` rows" (`0 ≥ 0`), yet `execute_sql_query` returns
the no-results message, which neither ends with nor contains a truncation
notice — the claim as stated fails at this input. -/
theorem C7_counterexample :
    ([] : List (List String)).length ≥ 0
    ∧ execute_sql_query (fun _ => .ok (["c"], [])) "SELECT 1" 0 =
        "Query executed successfully, but no results were returned."
    ∧ containsSubstr (execute_sql_query (fun _ => .ok (["c"], [])) "SELECT 1" 0)
        "Showing first" = false :=
  ⟨Nat.le.refl, rfl, by decide⟩

/-- C7 (amended): on a NON-EMPTY result set of at least `limit` rows the
returned text is the formatted table followed by the truncation notice
(so it ends with the notice); on fewer than `limit` rows the text carries
no notice — it is the no-results message or the bare formatted table. -/
theorem C7_truncation (f : String → Except String (List String × List (List String)))
    (q : String) (cols : List String) (rows : List (List String)) (limit : Nat)
    (h : f (addLimit q limit) = .ok (cols, rows)) :
    (rows ≠ [] → limit ≤ rows.length →
      execute_sql_query f q limit = formatResultTable cols rows ++ truncNotice limit)
    ∧ (rows.length < limit →
      execute_sql_query f q limit = "Query executed successfully, but no results were returned."
        ∨ execute_sql_query f q limit = formatResultTable cols rows) := by
  constructor
  · intro hne hlen
    cases rows with
    | nil => exact absurd rfl hne
    | cons a t =>
      have hlen' : limit ≤ t.length + 1 := by simpa using hlen
      simp [execute_sql_query, runPrepared, h, hlen']
  · intro hlt
    cases rows with
    | nil =>
      left
      simp [execute_sql_query, runPrepared, h]
    | cons a t =>
      right
      have hn : ¬ limit ≤ t.length + 1 := by
        simp only [List.length_cons] at hlt
        omega
      simp [execute_sql_query, runPrepared, h, hn]

/-- Witness for C7 (amended) at a one-row result set with `limit = 1`. -/
theorem C7_truncation_witness :
    execute_sql_query (fun _ => .ok (["c"], [["x"]])) "SELECT 1" 1 =
      formatResultTable ["c"] [["x"]] ++ truncNotice 1 :=
  (C7_truncation (fun _ => .ok (["c"], [["x"]])) "SELECT 1" ["c"] [["x"]] 1 rfl).1
    (by decide) (by decide)

/-! ## Claim C8 -/

/-- C8: the describe-branch table-name guess is always a word of the
lower-cased goal outside the stop-list; for
`"describe structure of users"` it is `"users"`, and with the plugin
available the fallback then describes exactly that table. -/
theorem C8_table_guess :
    (∀ gl w, guessTableName gl = some w →
      w ∈ splitWords gl ∧ stopWords.contains w = false)
    ∧ guessTableName "describe structure of users" = some "users"
    ∧ (∀ p : KernelPlugin, p.found = true →
        «_intelligent_fallback» p "describe structure of users" =
          match p.describe_table_fn "users" with
          | .error err => .error err
          | .ok result =>
            .ok ⟨"describe structure of users",
              "Table structure for " ++ "users" ++ ":\n" ++ result, none, "success"⟩) := by
  refine ⟨fun gl w h => ?_, by decide, fun p hp => ?_⟩
  · refine ⟨List.mem_of_find?_eq_some h, ?_⟩
    have := List.find?_some h
    cases hc : stopWords.contains w with
    | false => rfl
    | true => rw [hc] at this; exact absurd this (by decide)
  · obtain ⟨found, lt, dt, es⟩ := p
    simp only at hp
    subst hp
    rfl

/-- Witness for C8 with a concrete plugin. -/
theorem C8_table_guess_witness :
    «_intelligent_fallback» ⟨true, .ok "T", fun t => .ok ("cols of " ++ t), fun _ => .ok "42"⟩
        "describe structure of users" =
      .ok ⟨"describe structure of users",
        "Table structure for " ++ "users" ++ ":\n" ++ ("cols of " ++ "users"),
        none, "success"⟩ :=
  C8_table_guess.2.2 ⟨true, .ok "T", fun t => .ok ("cols of " ++ t), fun _ => .ok "42"⟩ rfl

/-! ## Claim C9 -/

/-- C9: for every oracle/plugin behaviour, `run` is total (never raises in
the source) and returns a dictionary that echoes the goal and whose status
is `"success"` or `"error"`. -/
theorem C9_run_total (env : AgentEnv) (goal : String) :
    (run env goal).goal = goal
    ∧ ((run env goal).status = "success" ∨ (run env goal).status = "error") := by
  obtain ⟨chat, plugin⟩ := env
  cases chat with
  | ok response =>
    cases response with
    | nil => exact ⟨rfl, Or.inr rfl⟩
    | cons h t => exact ⟨rfl, Or.inl rfl⟩
  | error e =>
    cases hr : «_intelligent_fallback» plugin goal with
    | ok r =>
      have hf := fallback_ok_fields plugin goal r hr
      simp only [run, hr]
      exact ⟨hf.2, Or.inl hf.1⟩
    | error err =>
      refine ⟨?_, Or.inr ?_⟩ <;> simp [run, hr]

/-! ## Claim C6 -/

/-- C6: every returning branch of the heuristic fallback reports
`status = "success"` (and when the plugin is found and its functions answer,
the fallback does return); the fallback path yields a top-level `"error"`
only when the fallback itself raised (plugin lookup failed or a call
raised), and that error dictionary's message asks for a configuration
check. -/
theorem C6_fallback_error_policy (p : KernelPlugin) (goal : String) :
    (∀ r, «_intelligent_fallback» p goal = .ok r → r.status = "success")
    ∧ (p.found = true →
        (∃ a, p.list_tables_fn = .ok a) →
        (∀ s, ∃ b, p.describe_table_fn s = .ok b) →
        (∀ s, ∃ c, p.execute_sql_query_fn s = .ok c) →
        ∃ r, «_intelligent_fallback» p goal = .ok r ∧ r.status = "success")
    ∧ (∀ (env : AgentEnv) (e : String), env.chat = .error e → env.plugin = p →
        (∀ err, «_intelligent_fallback» p goal = .error err →
          (run env goal).status = "error"
          ∧ (run env goal).result =
              "I encountered an error: " ++ e
                ++ ". This might be due to function calling configuration. Please check your Semantic Kernel version and Azure OpenAI setup.")
        ∧ (∀ r, «_intelligent_fallback» p goal = .ok r → run env goal = r))
    ∧ containsSubstr
        "This might be due to function calling configuration. Please check your Semantic Kernel version and Azure OpenAI setup."
        "configuration" = true := by
  refine ⟨fun r h => (fallback_ok_fields p goal r h).1, ?_, ?_, by decide⟩
  · intro hf hlt hd he
    obtain ⟨a, ha⟩ := hlt
    simp only [«_intelligent_fallback», defaultFallbackResult, hf, Bool.not_true,
      Bool.false_eq_true, if_false]
    split
    · rw [ha]
      exact ⟨_, rfl, rfl⟩
    · split
      · split
        · rename_i tn _
          obtain ⟨b, hb⟩ := hd tn
          rw [hb]
          exact ⟨_, rfl, rfl⟩
        · exact ⟨_, rfl, rfl⟩
      · split
        · split
          · obtain ⟨c, hc⟩ := he "SELECT COUNT(*) as total_records FROM telemetry_data"
            rw [hc]
            exact ⟨_, rfl, rfl⟩
          · exact ⟨_, rfl, rfl⟩
        · split
          · exact ⟨_, rfl, rfl⟩
          · exact ⟨_, rfl, rfl⟩
  · intro env e hchat hplug
    constructor
    · intro err herr
      obtain ⟨chat, plugin⟩ := env
      simp only at hchat hplug
      subst hchat
      subst hplug
      refine ⟨?_, ?_⟩ <;> simp [run, herr]
    · intro r hr
      obtain ⟨chat, plugin⟩ := env
      simp only at hchat hplug
      subst hchat
      subst hplug
      simp only [run, hr]

/-- Witness for C6: with the chat oracle down and the plugin lookup failing,
the request fails with `status = "error"` and the configuration-check
message. -/
theorem C6_fallback_error_policy_witness :
    (run ⟨.error "boom", ⟨false, .ok "", fun _ => .ok "", fun _ => .ok ""⟩⟩ "hi").status = "error"
    ∧ (run ⟨.error "boom", ⟨false, .ok "", fun _ => .ok "", fun _ => .ok ""⟩⟩ "hi").result =
        "I encountered an error: " ++ "boom"
          ++ ". This might be due to function calling configuration. Please check your Semantic Kernel version and Azure OpenAI setup." :=
  ((C6_fallback_error_policy ⟨false, .ok "", fun _ => .ok "", fun _ => .ok ""⟩ "hi").2.2.1
    ⟨.error "boom", ⟨false, .ok "", fun _ => .ok "", fun _ => .ok ""⟩⟩ "boom" rfl rfl).1
    "DatabricksPlugin not found" rfl

/-! ## Claim C10 -/

/-- C10: the fallback's intent families are tested in a fixed priority
order — list before describe before count before chart — with the first
matching family winning; in particular a goal containing both a list
keyword and a describe keyword goes to `list_tables`, never
`describe_table`. -/
theorem C10_priority (p : KernelPlugin) (goal : String) (hp : p.found = true) :
    (hasAny (strLower goal) ["list", "show", "available", "tables"] = true →
      «_intelligent_fallback» p goal =
        match p.list_tables_fn with
        | .error err => .error err
        | .ok result =>
          .ok ⟨goal, "Here are the available tables:\n" ++ result, none, "success"⟩)
    ∧ (hasAny (strLower goal) ["list", "show", "available", "tables"] = false →
       hasAny (strLower goal) ["describe", "structure", "columns", "schema"] = true →
      «_intelligent_fallback» p goal =
        match guessTableName (strLower goal) with
        | some table_name =>
          (match p.describe_table_fn table_name with
           | .error err => .error err
           | .ok result =>
             .ok ⟨goal, "Table structure for " ++ table_name ++ ":\n" ++ result, none, "success"⟩)
        | none => defaultFallbackResult goal)
    ∧ (hasAny (strLower goal) ["list", "show", "available", "tables"] = false →
       hasAny (strLower goal) ["describe", "structure", "columns", "schema"] = false →
       hasAny (strLower goal) ["count", "total", "number"] = true →
      «_intelligent_fallback» p goal =
        if containsSubstr (strLower goal) "telemetry_data" then
          match p.execute_sql_query_fn "SELECT COUNT(*) as total_records FROM telemetry_data" with
          | .error err => .error err
          | .ok result =>
            .ok ⟨goal,
              "I executed this query to get the count: SELECT COUNT(*) as total_records FROM telemetry_data\n\nResult:\n" ++ result,
              none, "success"⟩
        else defaultFallbackResult goal)
    ∧ (hasAny (strLower goal) ["list", "show", "available", "tables"] = false →
       hasAny (strLower goal) ["describe", "structure", "columns", "schema"] = false →
       hasAny (strLower goal) ["count", "total", "number"] = false →
       hasAny (strLower goal) ["chart", "graph", "visualize", "plot"] = true →
      «_intelligent_fallback» p goal =
        .ok ⟨goal,
          "For chart creation, I need a specific SQL query. Please specify what data you want to visualize and I'll help create the appropriate query.",
          none, "success"⟩)
    ∧ (∀ result, p.list_tables_fn = .ok result →
        «_intelligent_fallback» p "show me the schema" =
          .ok ⟨"show me the schema", "Here are the available tables:\n" ++ result,
            none, "success"⟩) := by
  refine ⟨fun h1 => ?_, fun h1 h2 => ?_, fun h1 h2 h3 => ?_, fun h1 h2 h3 h4 => ?_,
    fun result hres => ?_⟩
  · simp [«_intelligent_fallback», hp, h1]
  · simp [«_intelligent_fallback», hp, h1, h2]
  · simp [«_intelligent_fallback», hp, h1, h2, h3]
  · simp [«_intelligent_fallback», hp, h1, h2, h3, h4]
  · have h1 : hasAny (strLower "show me the schema")
        ["list", "show", "available", "tables"] = true := by decide
    simp [«_intelligent_fallback», hp, h1, hres]

/-- Witness for C10 at a goal carrying both a list keyword (`show`) and a
describe keyword (`schema`). -/
theorem C10_priority_witness :
    «_intelligent_fallback» ⟨true, .ok "T1", fun _ => .ok "D", fun _ => .ok "42"⟩
        "show me the schema" =
      .ok ⟨"show me the schema", "Here are the available tables:\n" ++ "T1",
        none, "success"⟩ :=
  (C10_priority ⟨true, .ok "T1", fun _ => .ok "D", fun _ => .ok "42"⟩
    "show me the schema" rfl).2.2.2.2 "T1" rfl

/-! ## Claim C3 -/

/-- A response carrying TWO fenced json blocks; only the second one's
object has a top-level `graph_data` field. -/
def twoBlockResponse : String :=
  "pre\n```json\n\x7b\"a\": 1\x7d\n```\nmid\n```json\n\x7b\"graph_data\": 5\x7d\n```"

/-- C3 counterexample: `twoBlockResponse` contains a fenced json code block
whose parsed object has a top-level `graph_data` field (value `5`), yet
`_extract_chart_data` returns the absence marker, because the regex search
finds the EARLIER fenced block, whose object has no `graph_data` field, and
the direct-JSON branch does not fire (the trimmed text starts with `p`). -/
theorem C3_counterexample :
    containsSubstr twoBlockResponse "```json\n\x7b\"graph_data\": 5\x7d\n```" = true
    ∧ jsonLoads "\x7b\"graph_data\": 5\x7d" = some (Json.obj [("graph_data", Json.num 5)])
    ∧ (Json.obj [("graph_data", Json.num 5)]).getField "graph_data" = some (Json.num 5)
    ∧ «_extract_chart_data» twoBlockResponse = Json.null
    ∧ Json.num 5 ≠ Json.null :=
  ⟨by decide, rfl, rfl, rfl, fun h => Json.noConfusion h⟩

/-- C3 (amended): extraction returns the `graph_data` field of the FIRST
fenced json block the pattern matches — unchanged, nested objects included —
whenever that block parses with the field present; and whenever no fenced
match parses to an object carrying `graph_data` (in particular when the text
contains no such fenced block at all) and the trimmed text does not start
with `{`, it returns the absence marker. -/
theorem C3_first_block (s : String) :
    (∀ g d v, searchFenced s.toList = some g →
      jsonLoads (String.mk g) = some d →
      d.getField "graph_data" = some v →
      «_extract_chart_data» s = v)
    ∧ ((∀ g d, searchFenced s.toList = some g →
        jsonLoads (String.mk g) = some d →
        d.getField "graph_data" = none) →
      strStartsWith (strStrip s) "\x7b" = false →
      «_extract_chart_data» s = Json.null)
    ∧ «_extract_chart_data» "```json\n\x7b\"graph_data\": \x7b\"type\": \"bar\"\x7d\x7d\n```" =
        Json.obj [("type", Json.str "bar")] := by
  refine ⟨fun g d v h1 h2 h3 => ?_, fun hno h2 => ?_, rfl⟩
  · have h1' : searchFenced s.data = some g := h1
    simp [«_extract_chart_data», h1', h2, h3]
  · cases hs : searchFenced s.data with
    | none => simp [«_extract_chart_data», directJson, hs, h2]
    | some g =>
      cases hj : jsonLoads (String.mk g) with
      | none => simp [«_extract_chart_data», hs, hj]
      | some d =>
        have hd : d.getField "graph_data" = none := hno g d hs hj
        simp [«_extract_chart_data», directJson, hs, hj, hd, h2]

/-- Witness for C3 (amended) at a single-block response. -/
theorem C3_first_block_witness :
    «_extract_chart_data» "```json\n\x7b\"graph_data\": 7\x7d\n```" = Json.num 7 :=
  (C3_first_block "```json\n\x7b\"graph_data\": 7\x7d\n```").1
    ("\x7b\"graph_data\": 7\x7d").toList
    (Json.obj [("graph_data", Json.num 7)]) (Json.num 7) rfl rfl rfl

/-! ## Claim C1 -/

/-- An orchestration whose chat response carries an embedded chart payload:
`run` extracts it into its returned dictionary. -/
def chartEnv : AgentEnv :=
  ⟨.ok ["```json\n\x7b\"graph_data\": \x7b\"type\": \"bar\"\x7d\x7d\n```"],
   ⟨true, .ok "", fun _ => .ok "", fun _ => .ok ""⟩⟩

/-- C1 (code bug): the orchestration succeeds and `run`'s dictionary carries
the extracted chart payload, but the `/ask` handler hard-codes
`"graph_data": None` in the response it builds, so the payload is discarded
instead of passed through. -/
theorem C1_graph_data_discarded :
    (run chartEnv "show a chart of sales").graph_data =
      some (Json.obj [("type", Json.str "bar")])
    ∧ (run chartEnv "show a chart of sales").status = "success"
    ∧ ask_agent true (.ok (run chartEnv "show a chart of sales")) "show a chart of sales" =
        .ok ⟨(run chartEnv "show a chart of sales").result, Json.null, "success"⟩
    ∧ (some (Json.obj [("type", Json.str "bar")]) : Option Json) ≠ some Json.null :=
  ⟨rfl, rfl, rfl, fun h => Json.noConfusion (Option.some.inj h)⟩

/-! ## Claim C2 -/

/-- C2 (code bug): an empty prompt produces HTTP 500, not the specified 400
— the handler's own `HTTPException(400)` is raised inside its `try` block
and swallowed by the blanket `except Exception`, which re-raises it as a
500 whose detail embeds `str()` of the 400 exception.  The second half of
the claim does hold: when `run` raises, the handler answers 500 with an
`Internal server error` detail carrying the original exception text. -/
theorem C2_empty_prompt_gets_500 :
    ask_agent true (.ok ⟨"g", "r", none, "success"⟩) "" =
      .httpError 500 ("Internal server error: " ++ "400: Prompt must be provided")
    ∧ ask_agent true (.error "boom") "hello" =
        .httpError 500 ("Internal server error: " ++ "boom")
    ∧ containsSubstr ("Internal server error: " ++ "boom") "boom" = true :=
  ⟨rfl, rfl, by decide⟩
